import Mathlib

/-!
Verification of the Python-Synapse teaching scripts against their
natural-language specification.

The repository demonstrates Python iterators, generators, classic and
native coroutines, and thread-pool execution.  The definitions below are
shallow embeddings of the source:

* pure functions become Lean functions (`square_list`, `square_gen`, …);
* each generator in the source becomes an explicit state machine
  (a state type plus a resume/close/throw transition function), which is
  exactly the observable behaviour the Python generator protocol gives it;
* console output becomes an explicit list of emitted strings;
* the thread-pool / event-loop internals (`concurrent.futures`,
  `asyncio.gather`) are library code that is not part of the repository,
  so they are modelled from the spec, parametrised by an arbitrary
  completion order.
-/

set_option linter.unusedVariables false

namespace PySynapse

/-! ## Iterators-And-Genertors/02_generators.py : eager list vs generator -/

/-- Embeds `square_list(n)` from `02_generators.py`: starts with an empty
`result`, appends `i*i` for each `i in range(n)` and returns the list. -/
def square_list (n : Nat) : List Nat :=
  List.foldl (fun result i => result ++ [i * i]) [] (List.range n)

/-- Embeds the generator function `square_gen(n)` from `02_generators.py`:
the generator state is the loop counter `i`; draining it yields `i*i` for
each `i in range(n)` in order.  `square_gen.drain i n` is the list of the
values produced from loop position `i` on; `list(square_gen(n))` is
`square_gen.drain 0 n`. -/
def square_gen.drain (i n : Nat) : List Nat :=
  if h : i < n then i * i :: square_gen.drain (i + 1) n else []
termination_by n - i

/-- `list(square_gen(n))`: the full sequence of the generator's values. -/
def square_gen.toList (n : Nat) : List Nat :=
  square_gen.drain 0 n

/-! ## Iterators-And-Genertors/02_generators.py : Count vs count_generator -/

/-- Embeds `Count.__next__` from `02_generators.py` as the sequence it
yields from a given `current`: while `current > end` is false it returns
`current` and increments.  Python integers are unbounded, so the state is
`Int`.  `Count.drain current e` is the list of values `Count(start, e)`
yields once its cursor is at `current`. -/
def Count.drain (current e : Int) : List Int :=
  if h : current > e then [] else current :: Count.drain (current + 1) e
termination_by (e + 1 - current).toNat
decreasing_by
  omega

/-- Embeds the generator `count_generator(start, end)` from
`02_generators.py`: while `current < end` it yields `current` and
increments.  `count_generator.drain current e` is the remaining sequence
from cursor `current`. -/
def count_generator.drain (current e : Int) : List Int :=
  if h : current < e then current :: count_generator.drain (current + 1) e else []
termination_by (e - current).toNat
decreasing_by
  omega

/-! ## Iterators-And-Genertors/01_iterables&iterators.py : SquareRange -/

/-- Embeds the class `SquareRange` from `01_iterables&iterators.py`.
Fields mirror `__init__`: `start` (remembered original start), `end_`
(the `end` argument; `end` is a Lean keyword) and `value` (the cursor).
Python integers are unbounded, so fields are `Int`. -/
structure SquareRange where
  start : Int
  end_ : Int
  value : Int

/-- Embeds `SquareRange(start, end)` construction: `value` starts at `start`. -/
def SquareRange.mkRange (start e : Int) : SquareRange :=
  { start := start, end_ := e, value := start }

/-- Embeds `SquareRange.__next__`: when `value >= end` it raises
StopIteration (here `none`); otherwise it returns `value ** 2` and
increments `value`. -/
def SquareRange.next (s : SquareRange) : Option (Int × SquareRange) :=
  if s.value ≥ s.end_ then none
  else some (s.value ^ 2, { s with value := s.value + 1 })

/-- Running a `for` loop over a `SquareRange` object: calls `__next__`
until StopIteration, returning the values produced and the iterator object
as the loop leaves it (the same object, with its mutated cursor). -/
def SquareRange.drain (s : SquareRange) : List Int × SquareRange :=
  if h : s.value ≥ s.end_ then ([], s)
  else
    (s.value ^ 2 :: (SquareRange.drain { s with value := s.value + 1 }).1,
      (SquareRange.drain { s with value := s.value + 1 }).2)
termination_by (s.end_ - s.value).toNat
decreasing_by
  all_goals simp only [not_le] at h
  all_goals omega

/-- Embeds the generator function `square_generator(start, end)` from
`01_iterables&iterators.py`: its suspended state is the pair of locals
`current` and `end`. -/
structure square_generator.State where
  current : Int
  end_ : Int

/-- Embeds calling `square_generator(start, end)`: returns a generator
iterator whose state is `current = start`; no body code runs. -/
def square_generator (start e : Int) : square_generator.State :=
  { current := start, end_ := e }

/-- Embeds one `next()` on the `square_generator` iterator: while
`current < end` it yields `current ** 2` and increments `current`;
otherwise the body returns and StopIteration is raised (`none`). -/
def square_generator.State.next (g : square_generator.State) :
    Option (Int × square_generator.State) :=
  if g.current < g.end_ then some (g.current ^ 2, { g with current := g.current + 1 })
  else none

/-- Running a `for` loop over the generator: values produced and the
generator object as the loop leaves it. -/
def square_generator.State.drain (g : square_generator.State) :
    List Int × square_generator.State :=
  if h : g.current < g.end_ then
    (g.current ^ 2 :: (square_generator.State.drain { g with current := g.current + 1 }).1,
      (square_generator.State.drain { g with current := g.current + 1 }).2)
  else ([], g)
termination_by (g.end_ - g.current).toNat
decreasing_by
  all_goals omega

/-! ## Python runtime outcomes used by the generator embeddings -/

/-- The runtime errors the embedded scripts can hit at a generator
boundary.  `TypeErrorNonNoneToJustStarted` is Python's «can't send
non-None value to a just-started generator»; `TypeErrorNoneNotIterable`
is the TypeError from `pattern in None`; `RuntimeErrorYieldAfterClose` is
«generator ignored GeneratorExit»; `UncaughtValueError` is a thrown
ValueError the body does not catch. -/
inductive PyError where
  | TypeErrorNonNoneToJustStarted
  | TypeErrorNoneNotIterable
  | RuntimeErrorYieldAfterClose
  | UncaughtValueError
deriving DecidableEq

/-- Python's rendering of an optional string in an f-string: `None`
prints as `"None"`. -/
def pyShow : Option String → String
  | none => "None"
  | some s => s

/-- The values the embedded generators yield: Python ints and strings. -/
inductive PyVal where
  | int (n : Int)
  | str (s : String)
deriving DecidableEq

/-! ## Iterators-And-Genertors/02_generators.py : chef_bot (.send) -/

/-- Suspension states of the generator `chef_bot` from
`02_generators.py`: just created, or paused at
`ingredient = yield "Waiting for ingredient..."`. -/
inductive chef_bot.State where
  | Created
  | Suspended
deriving DecidableEq

/-- Embeds calling `chef_bot()`: a generator object in its created state;
no body code runs. -/
def chef_bot.call : chef_bot.State := .Created

/-- Embeds `c.send(input)` / `next(c)` (`next` is `send(None)`) on
`chef_bot` under Python generator semantics.  Returns the printed lines,
the yielded value and the new state, or the runtime error.  Sending a
non-None value to the just-created generator raises TypeError: there is
no pending `yield` to receive it.  `send(None)` on the created generator
starts the body: it prints `"Chef is in the kitchen!"` and pauses at the
first `yield`.  Once suspended, a resume assigns the input to
`ingredient`, prints the cooking line, loops and pauses at `yield`
again. -/
def chef_bot.send (s : chef_bot.State) (input : Option String) :
    Except PyError (List String × String × chef_bot.State) :=
  match s, input with
  | .Created, some _ => .error .TypeErrorNonNoneToJustStarted
  | .Created, none =>
      .ok (["Chef is in the kitchen!"], "Waiting for ingredient...", .Suspended)
  | .Suspended, input =>
      .ok (["Chef is cooking with: " ++ pyShow input],
        "Waiting for ingredient...", .Suspended)

/-! ## Async-Await/01_coroutines.py : grep (classic coroutine) -/

/-- Suspension states of the classic coroutine `grep(pattern)` from
`01_coroutines.py`: just created, or paused at `value = yield`. -/
inductive grep.State where
  | Created
  | Suspended
deriving DecidableEq

/-- Embeds `searcher.send(input)` / `next(searcher)` on `grep(pattern)`
under Python generator semantics.  The bare `yield` produces `None`
(`none` here).  Sending a non-None value before priming raises TypeError.
Priming prints the search banner and pauses at `yield`.  Once suspended,
a sent line is printed iff it contains `pattern`; resuming with `None`
makes `pattern in None` raise TypeError. -/
def grep.send (pattern : String) (s : grep.State) (input : Option String) :
    Except PyError (List String × Option String × grep.State) :=
  match s, input with
  | .Created, some _ => .error .TypeErrorNonNoneToJustStarted
  | .Created, none =>
      .ok (["Searching for the pattern : " ++ pattern], none, .Suspended)
  | .Suspended, none => .error .TypeErrorNoneNotIterable
  | .Suspended, some value =>
      .ok (if value.containsSubstr pattern then [value] else [], none, .Suspended)

/-! ## Iterators-And-Genertors/02_generators.py : loud_generator -/

/-- States of `loud_generator`: created, paused at `yield 1`, paused at
`yield 2`, finished. -/
inductive loud_generator.State where
  | Created
  | AtY1
  | AtY2
  | Done
deriving DecidableEq

/-- Embeds `g = loud_generator()`: the generator object in its created
state together with the console lines printed by the call — none, because
no body code runs at call time. -/
def loud_generator.call : loud_generator.State × List String := (.Created, [])

/-- Embeds `next(g)` on `loud_generator`: printed lines, yielded value
(`none` means StopIteration) and new state.  The first resume runs the
body from the top, printing the start banner before pausing at `yield 1`;
the resume after `yield 2` prints the finish banner and raises
StopIteration. -/
def loud_generator.next :
    loud_generator.State → List String × Option Int × loud_generator.State
  | .Created => (["--- Generator Started ---"], some 1, .AtY1)
  | .AtY1 => ([], some 2, .AtY2)
  | .AtY2 => (["--- Generator Finished ---"], none, .Done)
  | .Done => ([], none, .Done)

/-! ## Async-Await/01_coroutines.py : network_request (native coroutine) -/

/-- A coroutine object returned by the `async def network_request(name,
delay)`: it records its arguments and whether the body has started. -/
structure network_request.Coroutine where
  name : String
  delay : Nat
  started : Bool
deriving DecidableEq

/-- Embeds `network_request(name, delay)`: calling an `async def`
function returns a coroutine object without executing the body, so no
console line is printed and the body has not started. -/
def network_request.call (name : String) (delay : Nat) :
    network_request.Coroutine × List String :=
  ({ name := name, delay := delay, started := false }, [])

/-- Embeds `return f"Data from {name}"`: the value `network_request`
produces when the event loop has run it to completion. -/
def network_request.result (name : String) : String := "Data from " ++ name

/-! ## Iterators-And-Genertors/02_generators.py : database_reader (.close) -/

/-- States of `database_reader`: created, paused at `yield "Row 1"`,
paused at `yield "Row 2"`, closed (exhausted or cancelled). -/
inductive database_reader.State where
  | Created
  | AtRow1
  | AtRow2
  | Closed
deriving DecidableEq

/-- Embeds `next(reader)` on `database_reader`: printed lines, yielded
value (`none` is StopIteration) and new state.  On normal exhaustion the
`finally` block prints the disconnect line before StopIteration. -/
def database_reader.next :
    database_reader.State → List String × Option String × database_reader.State
  | .Created => (["Connected to DB"], some "Row 1", .AtRow1)
  | .AtRow1 => ([], some "Row 2", .AtRow2)
  | .AtRow2 => (["Disconnected safely"], none, .Closed)
  | .Closed => ([], none, .Closed)

/-- Embeds `reader.close()`: GeneratorExit is injected at the paused
`yield`, forcing the `finally` block — the disconnect print — to run, and
the generator then reaches its closed (cancelled) terminal state.  Closing
a generator that never started or already finished runs no body code. -/
def database_reader.close :
    database_reader.State → List String × database_reader.State
  | .Created => ([], .Closed)
  | .AtRow1 => (["Disconnected safely"], .Closed)
  | .AtRow2 => (["Disconnected safely"], .Closed)
  | .Closed => ([], .Closed)

/-- Modelled from the spec: the repository contains no generator whose
body tries to suspend again after the cancellation signal; the rule is
stated in the source's `.close()` commentary («A generator must stop
after a GeneratorExit.  If it tries to yield another value after being
closed, Python will raise a RuntimeError») and in the spec («any attempt
to do so after cancellation is a fatal usage error reported to the
caller»).  `defiant` is a body that answers the cancellation signal at
its suspension point with another `yield`. -/
inductive defiant.State where
  | Created
  | Suspended
  | Closed
deriving DecidableEq

/-- Modelled from the spec: closing `defiant` while suspended makes its
body yield again after GeneratorExit, which is the fatal
RuntimeError reported to the caller of `close()`. -/
def defiant.close : defiant.State → Except PyError defiant.State
  | .Created => .ok .Closed
  | .Suspended => .error .RuntimeErrorYieldAfterClose
  | .Closed => .ok .Closed

/-! ## Iterators-And-Genertors/02_generators.py : thrower (.throw) -/

/-- States of `thrower`: created, paused at `yield 1`, paused at
`yield 2`, paused at `yield "ValueError handled"` inside the except
block, finished. -/
inductive thrower.State where
  | Created
  | AtY1
  | AtY2
  | AtHandled
  | Done
deriving DecidableEq

/-- Embeds `next(t)` on `thrower`. -/
def thrower.next :
    thrower.State → Except PyError (List String × Option PyVal × thrower.State)
  | .Created => .ok ([], some (.int 1), .AtY1)
  | .AtY1 => .ok ([], some (.int 2), .AtY2)
  | .AtY2 => .ok ([], none, .Done)
  | .AtHandled => .ok ([], none, .Done)
  | .Done => .ok ([], none, .Done)

/-- Embeds `t.throw(ValueError(msg))`: the exception is raised at the
current `yield`.  While paused inside the `try` block the `except
ValueError` clause catches it, prints the message and the body resumes,
pausing at `yield "ValueError handled"`.  Thrown anywhere else, no
handler encloses the raise point and the ValueError propagates to the
caller. -/
def thrower.throw (s : thrower.State) (msg : String) :
    Except PyError (List String × Option PyVal × thrower.State) :=
  match s with
  | .Created => .error .UncaughtValueError
  | .AtY1 => .ok ([msg], some (.str "ValueError handled"), .AtHandled)
  | .AtY2 => .ok ([msg], some (.str "ValueError handled"), .AtHandled)
  | .AtHandled => .error .UncaughtValueError
  | .Done => .error .UncaughtValueError

/-! ## Iterators-And-Genertors/02_generators.py : main_eh / sub_eh -/

/-- States of `main_eh()` (which is `yield from sub_eh()`): created,
paused at `sub_eh`'s `yield 1`, `yield 2`, the handler's
`yield "Handled error"`, finished. -/
inductive main_eh.State where
  | Created
  | AtY1
  | AtY2
  | AtHandled
  | Done
deriving DecidableEq

/-- Embeds `next(eh)` on `main_eh`: `yield from` transparently forwards
`sub_eh`'s yields. -/
def main_eh.next :
    main_eh.State → Except PyError (List String × Option PyVal × main_eh.State)
  | .Created => .ok ([], some (.int 1), .AtY1)
  | .AtY1 => .ok ([], some (.int 2), .AtY2)
  | .AtY2 => .ok ([], none, .Done)
  | .AtHandled => .ok ([], none, .Done)
  | .Done => .ok ([], none, .Done)

/-- Embeds `eh.throw(ValueError)`: `yield from` routes the thrown
exception to `sub_eh`'s paused `yield`; inside the `try` block the
`except ValueError` clause runs and the body pauses at
`yield "Handled error"`; elsewhere the ValueError is uncaught. -/
def main_eh.throw (s : main_eh.State) :
    Except PyError (List String × Option PyVal × main_eh.State) :=
  match s with
  | .Created => .error .UncaughtValueError
  | .AtY1 => .ok ([], some (.str "Handled error"), .AtHandled)
  | .AtY2 => .ok ([], some (.str "Handled error"), .AtHandled)
  | .AtHandled => .error .UncaughtValueError
  | .Done => .error .UncaughtValueError

/-! ## Threading/01_threading.py and asyncio.gather : pool model

`concurrent.futures.ThreadPoolExecutor` and `asyncio.gather` are library
code, not part of the repository; what follows is modelled from the
spec.  A run of the pool (or loop) is abstracted by `order`, the
submission indices of the units of work listed in the order in which
they finished; the spec's guarantees must hold for every completion
order. -/

/-- Modelled from the spec: the pool's result table.  Each unit of work
is `f` applied to its input; `completionResults` lists the
`(submission index, result)` records in completion order — the internal,
unordered execution the spec abstracts over. -/
def completionResults {α β : Type} (f : α → β) (inputs : List α) (order : List Nat) :
    List (Nat × β) :=
  order.filterMap (fun i => (inputs.get? i).map (fun x => (i, f x)))

/-- Modelled from the spec: `map(fn, inputs)` «submits one unit of work
per input in order and returns results in input order, regardless of
completion order» — the result table filled in completion order is read
back in submission-index order. -/
def poolMap {α β : Type} (f : α → β) (inputs : List α) (order : List Nat) : List β :=
  (List.range inputs.length).filterMap
    (fun i => (completionResults f inputs order).lookup i)

/-- Modelled from the spec: `as_completed(handles)` «produces a lazy
sequence of ResultHandles in completion order — first handle to finish is
yielded first». -/
def as_completed {α β : Type} (f : α → β) (inputs : List α) (order : List Nat) :
    List β :=
  (completionResults f inputs order).map (fun r => r.2)

/-- Embeds `do_wait(seconds)` from `01_threading.py`: the unit of work
sleeps `seconds` and returns `f'Done Waiting {seconds}...'`; the sleep
and the print are the duration/console effects the pool model abstracts
into the completion order. -/
def do_wait (seconds : Nat) : String :=
  "Done Waiting " ++ toString seconds ++ "..."

/-- Modelled from the spec: `gather(handles...)`'s result once every
child handle is terminal — the children's results, collected as they
complete, read back in submission order. -/
def gather {β : Type} (results : List β) (order : List Nat) : List β :=
  (List.range results.length).filterMap
    (fun i => (completionResults id results order).lookup i)

/-! ## Helper lemmas about the eager/lazy square and count sequences -/

theorem square_list_foldl (l : List Nat) (acc : List Nat) :
    List.foldl (fun result i => result ++ [i * i]) acc l = acc ++ l.map (fun i => i * i) := by
  induction l generalizing acc with
  | nil => simp
  | cons x xs ih => simp [List.foldl_cons, ih, List.append_assoc]

theorem square_gen_drain_eq (i n : Nat) :
    square_gen.drain i n = (List.range (n - i)).map (fun k => (i + k) * (i + k)) := by
  rw [square_gen.drain]
  split
  · next h =>
    have hn : n - i = (n - (i + 1)) + 1 := by omega
    rw [hn, List.range_succ_eq_map, square_gen_drain_eq (i + 1) n]
    simp only [List.map_cons, List.map_map]
    congr 1
    apply List.map_congr_left
    intro a _
    simp only [Function.comp_apply, Nat.succ_eq_add_one]
    have h2 : i + 1 + a = i + (a + 1) := by omega
    rw [h2]
  · next h =>
    have hn : n - i = 0 := by omega
    simp [hn]
termination_by n - i

theorem Count_drain_eq (current e : Int) :
    Count.drain current e =
      (List.range (e + 1 - current).toNat).map (fun k : Nat => current + (k : Int)) := by
  rw [Count.drain]
  split
  · next h =>
    have hz : (e + 1 - current).toNat = 0 := by omega
    simp [hz]
  · next h =>
    have hn : (e + 1 - current).toNat = (e + 1 - (current + 1)).toNat + 1 := by omega
    rw [hn, List.range_succ_eq_map, Count_drain_eq (current + 1) e]
    simp only [List.map_cons, List.map_map, Nat.cast_zero, add_zero]
    congr 1
    apply List.map_congr_left
    intro a _
    simp only [Function.comp_apply, Nat.succ_eq_add_one]
    push_cast
    ring
termination_by (e + 1 - current).toNat
decreasing_by
  omega

theorem Count_drain_eq_count_generator (current e : Int) :
    Count.drain current e = count_generator.drain current (e + 1) := by
  rw [Count.drain, count_generator.drain]
  by_cases h : current > e
  · rw [dif_pos h, dif_neg (by omega)]
  · rw [dif_neg h, dif_pos (by omega), Count_drain_eq_count_generator (current + 1) e]
termination_by (e + 1 - current).toNat
decreasing_by
  omega

/-! ## Helper lemmas about the pool model -/

theorem lookup_completionResults {α β : Type} (f : α → β) (inputs : List α)
    (i : Nat) (order : List Nat) (hlt : ∀ j ∈ order, j < inputs.length)
    (hi : i ∈ order) :
    (completionResults f inputs order).lookup i = (inputs.get? i).map f := by
  induction order with
  | nil => cases hi
  | cons j rest ih =>
    have hj : j < inputs.length := hlt j (List.mem_cons_self _ _)
    have hx : inputs[j]? = some (inputs.get ⟨j, hj⟩) := by
      rw [List.getElem?_eq_getElem hj]
      rfl
    by_cases hij : i = j
    · subst hij
      simp [completionResults, List.get?_eq_getElem?, hx, List.lookup_cons]
    · have hi' : i ∈ rest := by
        rcases List.mem_cons.mp hi with h | h
        · exact absurd h hij
        · exact h
      have hrest := ih (fun k hk => hlt k (List.mem_cons_of_mem _ hk)) hi'
      simpa [completionResults, List.get?_eq_getElem?, hx, List.lookup_cons,
        beq_false_of_ne hij] using hrest

theorem range_filterMap_get {α β : Type} (f : α → β) (l : List α) :
    (List.range l.length).filterMap (fun i => (l.get? i).map f) = l.map f := by
  induction l with
  | nil => simp
  | cons x xs ih =>
    have hcomp :
        (List.range xs.length).filterMap
          ((fun i => ((x :: xs).get? i).map f) ∘ Nat.succ) =
        (List.range xs.length).filterMap (fun i => (xs.get? i).map f) :=
      List.filterMap_congr (fun a _ => rfl)
    rw [List.length_cons, List.range_succ_eq_map, List.filterMap_cons,
      List.filterMap_map, hcomp, ih]
    rfl

theorem poolMap_eq_map {α β : Type} (f : α → β) (inputs : List α)
    (order : List Nat) (hperm : order.Perm (List.range inputs.length)) :
    poolMap f inputs order = inputs.map f := by
  unfold poolMap
  have hlt : ∀ j ∈ order, j < inputs.length := by
    intro j hj
    exact List.mem_range.mp (hperm.mem_iff.mp hj)
  have hstep :
      (List.range inputs.length).filterMap
        (fun i => (completionResults f inputs order).lookup i) =
      (List.range inputs.length).filterMap (fun i => (inputs.get? i).map f) := by
    apply List.filterMap_congr
    intro i hi
    exact lookup_completionResults f inputs i order hlt (hperm.mem_iff.mpr hi)
  rw [hstep, range_filterMap_get]

theorem gather_eq_submission_order {β : Type} (results : List β)
    (order : List Nat) (hperm : order.Perm (List.range results.length)) :
    gather results order = results := by
  unfold gather
  have h := poolMap_eq_map id results order hperm
  unfold poolMap at h
  rw [h, List.map_id]

theorem SquareRange.drain_leaves_exhausted_cursor (s : SquareRange) :
    ((s.drain).2).value ≥ ((s.drain).2).end_ := by
  rw [SquareRange.drain]
  split
  · next h => exact h
  · next h => exact SquareRange.drain_leaves_exhausted_cursor { s with value := s.value + 1 }
termination_by (s.end_ - s.value).toNat
decreasing_by
  omega

theorem square_generator.drain_leaves_spent_state (g : square_generator.State) :
    ¬ ((g.drain).2).current < ((g.drain).2).end_ := by
  rw [square_generator.State.drain]
  split
  · next h => exact square_generator.drain_leaves_spent_state { g with current := g.current + 1 }
  · next h => exact h
termination_by (g.end_ - g.current).toNat
decreasing_by
  omega

end PySynapse

open PySynapse

/-- C1: a lazy sequence (the `SquareRange` iterator object or the
`square_generator` generator iterator) consumed to exhaustion stays
exhausted: draining the object left behind by a full iteration produces no
further values, raises no error, and leaves the object unchanged — the
second full iteration is a no-op yielding the empty sequence. -/
theorem C1_exhausted_reiteration_yields_nothing :
    (∀ s : SquareRange, ((s.drain).2).drain = ([], (s.drain).2)) ∧
    (∀ g : square_generator.State, ((g.drain).2).drain = ([], (g.drain).2)) := by
  constructor
  · intro s
    rw [SquareRange.drain, dif_pos (SquareRange.drain_leaves_exhausted_cursor s)]
  · intro g
    rw [square_generator.State.drain, dif_neg (square_generator.drain_leaves_spent_state g)]

/-- C9: for every natural number `n`, the eager list builder and the lazy
generator compute the same sequence: `list(square_gen(n))` equals
`square_list(n)`, namely `[0*0, 1*1, ..., (n-1)*(n-1)]`. -/
theorem C9_square_gen_refines_square_list (n : Nat) :
    square_gen.toList n = square_list n ∧
    square_list n = (List.range n).map (fun i => i * i) := by
  have hlist : square_list n = (List.range n).map (fun i => i * i) := by
    unfold square_list
    rw [square_list_foldl]
    simp
  refine ⟨?_, hlist⟩
  rw [hlist]
  unfold square_gen.toList
  rw [square_gen_drain_eq 0 n]
  simp

/-- C10: for all integers `start` and `e`, `Count(start, e)` yields exactly
the integers `start, start+1, ..., e` inclusive, and produces the same
sequence as `count_generator(start, e + 1)`: the two constructs differ by
one in how they interpret the same end argument. -/
theorem C10_Count_vs_count_generator (start e : Int) :
    Count.drain start e =
      (List.range (e + 1 - start).toNat).map (fun k : Nat => start + (k : Int)) ∧
    Count.drain start e = count_generator.drain start (e + 1) :=
  ⟨Count_drain_eq start e, Count_drain_eq_count_generator start e⟩

/-- C2: resuming a never-started (created) generator with a non-None
input is a usage error reported to the caller — `chef_bot` and `grep`
both reject it with Python's TypeError — while the first resume with an
empty input (`next()` / `send(None)`) only starts the body and runs it to
its first suspension point. -/
theorem C2_send_to_created_requires_empty_input :
    (∀ v : String,
      chef_bot.send .Created (some v) = .error .TypeErrorNonNoneToJustStarted) ∧
    (∀ pattern v : String,
      grep.send pattern .Created (some v) = .error .TypeErrorNonNoneToJustStarted) ∧
    chef_bot.send .Created none =
      .ok (["Chef is in the kitchen!"], "Waiting for ingredient...", .Suspended) ∧
    (∀ pattern : String, grep.send pattern .Created none =
      .ok (["Searching for the pattern : " ++ pattern], none, .Suspended)) :=
  ⟨fun _ => rfl, fun _ _ => rfl, rfl, fun _ => rfl⟩

/-- C5: cancelling a suspended task (`reader.close()`) injects the
cancellation signal at the current suspension point: `database_reader`'s
registered cleanup (`finally`, the disconnect print) runs during the
close call, before the generator reaches its cancelled terminal state;
and a body that answers the signal by suspending again (`defiant`) makes
the close call fail with the fatal RuntimeError. -/
theorem C5_close_runs_cleanup_before_cancelled :
    database_reader.close .AtRow1 = (["Disconnected safely"], .Closed) ∧
    database_reader.close .AtRow2 = (["Disconnected safely"], .Closed) ∧
    defiant.close .Suspended = .error .RuntimeErrorYieldAfterClose :=
  ⟨rfl, rfl, rfl⟩

/-- C7: calling a generator function (`loud_generator()`) or an
`async def` function (`network_request(...)`) returns a task object in
its created state without executing any statement of the body: the call
prints nothing, and the body's first print only appears on the first
resume. -/
theorem C7_create_executes_no_body_code :
    loud_generator.call = (.Created, []) ∧
    (∀ name : String, ∀ delay : Nat,
      (network_request.call name delay).2 = [] ∧
      (network_request.call name delay).1.started = false) ∧
    (loud_generator.next .Created).1 = ["--- Generator Started ---"] :=
  ⟨rfl, fun _ _ => ⟨rfl, rfl⟩, rfl⟩

/-- C8: throwing an exception into a suspended generator raises it at the
current suspension point, where the body's ordinary `try`/`except`
handler catches it: `thrower` prints the message and yields
`"ValueError handled"`, and `main_eh` (delegating to `sub_eh` via
`yield from`) yields `"Handled error"` — both resume instead of
terminating. -/
theorem C8_throw_handled_by_body (msg : String) :
    thrower.throw .AtY1 msg =
      .ok ([msg], some (.str "ValueError handled"), .AtHandled) ∧
    main_eh.throw .AtY1 =
      .ok ([], some (.str "Handled error"), .AtHandled) :=
  ⟨rfl, rfl⟩

/-- C3: `map(f, inputs)` returns `[f(inputs[0]), f(inputs[1]), ...]` in
input order for every completion order of the individual units of
work. -/
theorem C3_map_returns_input_order {α β : Type} (f : α → β) (inputs : List α)
    (order : List Nat) (hperm : order.Perm (List.range inputs.length)) :
    poolMap f inputs order = inputs.map f :=
  poolMap_eq_map f inputs order hperm

/-- Witness for C3 at the source's `executor.map(do_wait, [9, 7, 4])`:
the shortest sleep (index 2) finishes first, yet the results come back in
input order. -/
theorem C3_map_returns_input_order_witness :
    (([2, 1, 0] : List Nat).Perm (List.range ([9, 7, 4] : List Nat).length)) ∧
    poolMap do_wait [9, 7, 4] [2, 1, 0] =
      ["Done Waiting 9...", "Done Waiting 7...", "Done Waiting 4..."] := by
  refine ⟨by decide, ?_⟩
  rw [C3_map_returns_input_order do_wait [9, 7, 4] [2, 1, 0] (by decide)]
  rfl

/-- C4: `as_completed(handles)` yields results in completion order — the
first unit of work to finish is yielded first, whatever the remaining
order — and this order may differ from submission order, as it does for
the source's `[1, 3, 6, 3, 2, 2, 8]` submissions. -/
theorem C4_as_completed_yields_completion_order {α β : Type} (f : α → β)
    (inputs : List α) (i : Nat) (rest : List Nat) (x : α)
    (hx : inputs.get? i = some x) :
    (as_completed f inputs (i :: rest)).head? = some (f x) ∧
    as_completed f inputs (i :: rest) = f x :: as_completed f inputs rest ∧
    as_completed do_wait [1, 3, 6, 3, 2, 2, 8] [0, 4, 5, 1, 3, 2, 6] ≠
      ([1, 3, 6, 3, 2, 2, 8] : List Nat).map do_wait := by
  rw [List.get?_eq_getElem?] at hx
  have hcons : as_completed f inputs (i :: rest) = f x :: as_completed f inputs rest := by
    simp [as_completed, completionResults, List.filterMap_cons, hx]
  refine ⟨by rw [hcons]; rfl, hcons, by decide⟩

/-- Witness for C4 at the source's submissions `[1, 3, 6, 3, 2, 2, 8]`
with the duration-sorted completion order `[0, 4, 5, 1, 3, 2, 6]`: the
1-second unit (index 0) finished first and its result is yielded
first. -/
theorem C4_as_completed_yields_completion_order_witness :
    (([1, 3, 6, 3, 2, 2, 8] : List Nat).get? 0 = some 1) ∧
    (as_completed do_wait [1, 3, 6, 3, 2, 2, 8]
        ((0 : Nat) :: [4, 5, 1, 3, 2, 6])).head? = some (do_wait 1) :=
  ⟨rfl, (C4_as_completed_yields_completion_order do_wait [1, 3, 6, 3, 2, 2, 8] 0
    [4, 5, 1, 3, 2, 6] 1 rfl).1⟩

/-- C6: when every child completes successfully, `gather(handles...)`
produces the children's results in submission order for every completion
order of the event loop. -/
theorem C6_gather_returns_submission_order {β : Type} (results : List β)
    (order : List Nat) (hperm : order.Perm (List.range results.length)) :
    gather results order = results :=
  gather_eq_submission_order results order hperm

/-- Witness for C6 at the source's `asyncio.gather(task1, task2, task3)`
with delays 3, 2, 1: the children finish in reverse order (Database,
API_B, API_A) yet the result list is in submission order. -/
theorem C6_gather_returns_submission_order_witness :
    (([2, 1, 0] : List Nat).Perm (List.range 3)) ∧
    gather [network_request.result "API_A", network_request.result "API_B",
        network_request.result "Database"] [2, 1, 0] =
      ["Data from API_A", "Data from API_B", "Data from Database"] := by
  refine ⟨by decide, ?_⟩
  rw [C6_gather_returns_submission_order
    [network_request.result "API_A", network_request.result "API_B",
      network_request.result "Database"] [2, 1, 0] (by decide)]
  rfl
